import Mathlib

/-!
# Verification of the Forgepad AI fallback orchestrator

Shallow embedding of the provider-fallback orchestration layer
(`AIService.sendMessage`, `classifyError`, `withTimeout`,
`emitRuntimeEvent` in `src/services/ai.ts`, plus the pieces of
`src/services/storage.ts` they consume), together with theorems that
settle the spec's claims about it.

Conventions of the embedding:
* Promise rejection values (`unknown` thrown errors) are the inductive
  `RawError`: a plain `Error` carrying a message, an already-classified
  error (an `Error` with a `classification` field), or a non-`Error`
  value.
* One attempt of a provider adapter, as raced by `withTimeout` and
  post-processed by the structured validator, is an `AttemptOutcome`.
* The per-call event trace (what is pushed to the runtime event bus and
  mirrored to the optional `onProviderSwitch` / `onProviderHealth`
  callbacks) is an explicit `List RuntimeEvent`; writes to
  `storage.saveProviderHealth` are an explicit list of pairs.
-/

namespace Forgepad

/-- `AIProvider` from `storage.ts`: `'openai' | 'anthropic' | 'gemini'`. -/
inductive AIProvider
  | gemini
  | openai
  | anthropic
deriving DecidableEq, Repr

/-- The string each provider interpolates into error/timeout messages. -/
def providerName : AIProvider → String
  | .gemini => "gemini"
  | .openai => "openai"
  | .anthropic => "anthropic"

/-- `const PROVIDER_ORDER: AIProvider[] = ['gemini', 'openai', 'anthropic']`. -/
def PROVIDER_ORDER : List AIProvider := [.gemini, .openai, .anthropic]

/-- `const DEFAULT_TIMEOUT_MS = 20_000`. -/
def DEFAULT_TIMEOUT_MS : Nat := 20000

/-- `ErrorClass` from `ai.ts`:
`'timeout' | 'auth' | 'rate_limit' | 'network' | 'provider' | 'unknown'`. -/
inductive ErrorClass
  | timeout
  | auth
  | rate_limit
  | network
  | provider
  | unknown
deriving DecidableEq, Repr

/-- The string value of an `ErrorClass` (used as the `reason` of a
provider-switch event, which in the source is the classification string
itself). -/
def classString : ErrorClass → String
  | .timeout => "timeout"
  | .auth => "auth"
  | .rate_limit => "rate_limit"
  | .network => "network"
  | .provider => "provider"
  | .unknown => "unknown"

/-- `ClassifiedError`: an `Error` (message) with a `classification` field. -/
structure ClassifiedError where
  message : String
  classification : ErrorClass
deriving DecidableEq, Repr

/-- A thrown JavaScript value as seen by `classifyError`: a plain `Error`
(no `classification` field), an error already carrying a
`classification`, or a non-`Error` value. -/
inductive RawError
  | plain (message : String)
  | classified (e : ClassifiedError)
  | nonError
deriving DecidableEq, Repr

/-- `pat ⊆ s` as contiguous subsequence over character lists; embeds the
JavaScript `String.prototype.includes` receiver/argument relation. -/
def containsSeq (pat : List Char) : List Char → Bool
  | [] => pat.isEmpty
  | c :: rest => pat.isPrefixOf (c :: rest) || containsSeq pat rest

/-- `s.includes(pat)` from JavaScript. -/
def strIncludes (s pat : String) : Bool := containsSeq pat.data s.data

/-- `s.toLowerCase()` from JavaScript, for the ASCII messages the
classifier inspects. -/
def lowerStr (s : String) : String := String.mk (s.data.map Char.toLower)

/-- The keyword chain of `classifyError` over an (already lower-cased)
message: first matching kind in the fixed priority order. -/
def classifyMessage (message : String) : ErrorClass :=
  let m := lowerStr message
  if strIncludes m "missing" || strIncludes m "invalid key" ||
      strIncludes m "unauthorized" || strIncludes m "401" then .auth
  else if strIncludes m "timeout" then .timeout
  else if strIncludes m "429" || strIncludes m "rate" then .rate_limit
  else if strIncludes m "network" || strIncludes m "fetch" then .network
  else if strIncludes m "provider" then .provider
  else .unknown

/-- `classifyError(provider, error)` from `ai.ts`: pass an
already-classified error through unchanged; otherwise take the `Error`'s
message (or `` `${provider} request failed` `` for a non-`Error` value)
and classify it by the keyword chain, preserving the message. -/
def classifyError (provider : AIProvider) (error : RawError) : ClassifiedError :=
  match error with
  | .classified e => e
  | .plain message => ⟨message, classifyMessage message⟩
  | .nonError =>
      let message := providerName provider ++ " request failed"
      ⟨message, classifyMessage message⟩

/-- `HealthState` values accepted by `storage.saveProviderHealth` /
carried by `ProviderHealthEvent`. -/
inductive HealthState
  | healthy
  | degraded
  | error
  | unconfigured
deriving DecidableEq, Repr

/-- `ProviderRuntimeEvent` from `ai.ts`: the tagged union pushed to the
runtime event bus.  The same `provider_switch` payload is also handed to
`options.onProviderSwitch` and the same `provider_health` payload to
`options.onProviderHealth` whenever those callbacks are supplied, so one
trace describes both sinks. -/
inductive RuntimeEvent
  | provider_switch (source target : AIProvider) (reason : String)
  | provider_health (provider : AIProvider) (health : HealthState) (detail : Option String)
deriving DecidableEq, Repr

/-- Outcome of one provider attempt as seen by the `try` block of
`sendMessage`: the raced `adapter.complete` either resolves with text
and (when a structured validator is present) validation passes
(`success`), the deadline fires first (`timedOut`), `adapter.complete`
rejects (`failed`), or `adapter.complete` resolves but the structured
parse/validate step afterwards throws — for a failed `validate` the
thrown value is `new Error('Structured output validation failed')`
(`structuredFailure`). -/
inductive AttemptOutcome
  | success (text : String)
  | timedOut
  | failed (e : RawError)
  | structuredFailure (e : RawError)
deriving DecidableEq, Repr

/-- The message of the error `withTimeout` rejects with when its
deadline fires: `` `${provider} request timed out after ${timeoutMs}ms` ``. -/
def timeoutMessage (provider : AIProvider) (timeoutMs : Nat) : String :=
  providerName provider ++ " request timed out after " ++ toString timeoutMs ++ "ms"

/-- `SendMessageResult` (minus the optional structured payload, which is
carried inside `AttemptOutcome.success`'s text for this model). -/
structure SendResult where
  text : String
  provider : AIProvider
  fallbackUsed : Bool
deriving DecidableEq, Repr

/-- What `sendMessage` finally throws: the last classified error, or the
bare `new Error('No providers available')` when the loop body never ran. -/
inductive SendFailure
  | classified (e : ClassifiedError)
  | noProviders
deriving DecidableEq, Repr

deriving instance DecidableEq for Except

/-- Observable outcome of one `sendMessage` call: the runtime-event
trace, the `storage.saveProviderHealth` writes in order, and the settled
value. -/
structure SendOutcome where
  events : List RuntimeEvent
  healthWrites : List (AIProvider × HealthState)
  result : Except SendFailure SendResult
deriving DecidableEq, Repr

/-- Data of the `catch` path for a failed attempt: events emitted before
the failure was caught (for a structured failure the `healthy` event of
the success path has already fired), the health writes already made, and
the classified error `classifyError(provider, error)` computes.  The
`success` row is never consulted. -/
def failureData (timeoutMs : Nat) (p : AIProvider) :
    AttemptOutcome → List RuntimeEvent × List (AIProvider × HealthState) × ClassifiedError
  | .success _ => ([], [], ⟨"", .unknown⟩)
  | .timedOut => ([], [], ⟨timeoutMessage p timeoutMs, .timeout⟩)
  | .failed e => ([], [], classifyError p e)
  | .structuredFailure e =>
      ([.provider_health p .healthy none], [(p, .healthy)], classifyError p e)

/-- The classified error attempt `p` produces (meaningful when the
attempt is not a success). -/
def attemptErr (timeoutMs : Nat) (oc : AIProvider → AttemptOutcome) (p : AIProvider) :
    ClassifiedError :=
  (failureData timeoutMs p (oc p)).2.2

/-- `lastError?.classification ?? 'provider'`: the `reason` string of a
provider-switch event. -/
def reasonOf : Option ClassifiedError → String
  | none => "provider"
  | some e => classString e.classification

/-- `lastError.classification === 'auth' ? 'unconfigured' : 'error'`:
the health recorded and emitted for a failed attempt. -/
def healthOf (err : ClassifiedError) : HealthState :=
  if err.classification = .auth then .unconfigured else .error

/-- The provider-switch events emitted at the top of a loop iteration:
none for the first candidate (`i = 0`), and one
`ProviderSwitch{from: previous, to: current, reason}` event afterwards. -/
def switchEvents (prev : Option AIProvider) (p : AIProvider) (le : Option ClassifiedError) :
    List RuntimeEvent :=
  match prev with
  | none => []
  | some q => [.provider_switch q p (reasonOf le)]

/-- The `for` loop of `sendMessage` over `providersToTry`, carrying the
previous candidate (`some` exactly when the loop index is positive) and
`lastError`.  Each iteration: emit the switch event when not first;
attempt; on success record/emit `healthy` and return
`{text, provider, fallbackUsed: i > 0}`; on failure classify, record and
emit health (`unconfigured` for `auth`, else `error`), then continue
exactly when `fallbackEnabled` and a candidate remains, else throw the
classified error.  An exhausted list throws
`lastError ?? new Error('No providers available')`.  (The
`if (!adapter) continue` guard of the source never fires: the
constructor registers an adapter for all three providers.) -/
def sendLoop (fb : Bool) (timeoutMs : Nat) (oc : AIProvider → AttemptOutcome) :
    List AIProvider → Option AIProvider → Option ClassifiedError → SendOutcome
  | [], _, lastError =>
      ⟨[], [], .error (match lastError with
        | some e => .classified e
        | none => .noProviders)⟩
  | p :: rest, prev, lastError =>
      match oc p with
      | .success text =>
          ⟨switchEvents prev p lastError ++ [.provider_health p .healthy none],
            [(p, .healthy)],
            .ok ⟨text, p, prev.isSome⟩⟩
      | o =>
          let pre := failureData timeoutMs p o
          let err := pre.2.2
          if fb && !rest.isEmpty then
            let next := sendLoop fb timeoutMs oc rest (some p) (some err)
            ⟨switchEvents prev p lastError ++ pre.1 ++
                [.provider_health p (healthOf err) (some err.message)] ++ next.events,
              pre.2.1 ++ [(p, healthOf err)] ++ next.healthWrites,
              next.result⟩
          else
            ⟨switchEvents prev p lastError ++ pre.1 ++
                [.provider_health p (healthOf err) (some err.message)],
              pre.2.1 ++ [(p, healthOf err)],
              .error (.classified err)⟩

/-- The candidate list of `sendMessage`:
`[selectedProvider, ...PROVIDER_ORDER.filter(p => p !== selectedProvider)]`
deduplicated by `filter((p, index, arr) => arr.indexOf(p) === index)`. -/
def mkCandidates (selected : AIProvider) : List AIProvider :=
  let base := selected :: PROVIDER_ORDER.filter (fun q => q ≠ selected)
  (base.enum.filter (fun ip => base.indexOf ip.2 = ip.1)).map Prod.snd

/-- `providersToTry`: candidates restricted to configured providers,
falling back to the full candidate list when no candidate is
configured. -/
def providersToTry (selected : AIProvider) (configured : List AIProvider) : List AIProvider :=
  let candidates := mkCandidates selected
  let healthyCandidates := candidates.filter (fun p => configured.contains p)
  if healthyCandidates.length > 0 then healthyCandidates else candidates

/-- `options.provider ?? prefs.defaultProvider` (likewise
`options.enableFallback ?? prefs.providerFallbackEnabled`). -/
def resolveSelected (optProvider : Option AIProvider) (defaultProvider : AIProvider) :
    AIProvider :=
  optProvider.getD defaultProvider

/-- `AIService.sendMessage`, parameterised by the resolved selected
provider, resolved fallback flag, the configured-provider list read from
storage, the resolved timeout, and the behaviour of each provider's
attempt. -/
def sendMessage (selected : AIProvider) (fb : Bool) (configured : List AIProvider)
    (timeoutMs : Nat) (oc : AIProvider → AttemptOutcome) : SendOutcome :=
  sendLoop fb timeoutMs oc (providersToTry selected configured) none none

/-- Event-shape discriminators for counting. -/
def isSwitchEvent : RuntimeEvent → Bool
  | .provider_switch _ _ _ => true
  | _ => false

def isHealthEvent : RuntimeEvent → Bool
  | .provider_health _ _ _ => true
  | _ => false

def countSwitch (evs : List RuntimeEvent) : Nat := (evs.filter isSwitchEvent).length

def countHealth (evs : List RuntimeEvent) : Nat := (evs.filter isHealthEvent).length

/-- The operation raced by `withTimeout`, abstracted by the event-loop
time (milliseconds) at which it settles and how: it resolves with text
or rejects with a thrown value. -/
inductive OpOutcome
  | resolves (t : Nat) (text : String)
  | rejects (t : Nat) (e : RawError)
deriving DecidableEq, Repr

/-- The time at which the raced operation settles. -/
def settleTime : OpOutcome → Nat
  | .resolves t _ => t
  | .rejects t _ => t

/-- The raced operation's own settlement. -/
def opResult : OpOutcome → Except RawError String
  | .resolves _ text => .ok text
  | .rejects _ e => .error e

/-- `withTimeout(promise, timeoutMs, provider)` from `ai.ts` under the
single-threaded event-loop model: `setTimeout` schedules the deadline at
`timeoutMs`, and `Promise.race` settles with whichever side settles
first — the operation's own result when it settles strictly before the
deadline, otherwise the timer's rejection, a `ClassifiedError` with
classification `'timeout'` and message
`` `${provider} request timed out after ${timeoutMs}ms` ``.  The
`finally` block runs `clearTimeout` on every path before the function
returns; the Boolean component records that the deadline timer was
cancelled. -/
def withTimeout (op : OpOutcome) (timeoutMs : Nat) (provider : AIProvider) :
    Except RawError String × Bool :=
  let raced : Except RawError String :=
    if settleTime op < timeoutMs then opResult op
    else .error (.classified ⟨timeoutMessage provider timeoutMs, .timeout⟩)
  (raced, true)

/-- A runtime-event listener, abstracted by whether invoking it on a
given event throws. -/
def emitAux (e : RuntimeEvent) : List (RuntimeEvent → Bool) → List Nat × Bool
  | [] => ([], false)
  | f :: rest =>
      if f e then ([0], true)
      else
        let next := emitAux e rest
        (0 :: next.1.map (· + 1), next.2)

/-- `emitRuntimeEvent(event)` from `ai.ts`:
`this.runtimeListeners.forEach((listener) => listener(event))`.  A JS
`Set` iterates in insertion (subscription) order and `forEach` invokes
the callback synchronously on each element; an exception thrown by a
listener propagates out of `forEach` at once, so listeners after the
throwing one are not invoked.  Each listener is modelled by whether it
throws on the event; the result is the list of (0-based) subscription
indices of the listeners that were invoked, in invocation order, paired
with whether an exception escaped to the publisher. -/
def emitRuntimeEvent (listeners : List (RuntimeEvent → Bool)) (e : RuntimeEvent) :
    List Nat × Bool :=
  emitAux e listeners

/-- Attempt shape discriminators used as claim hypotheses. -/
def isSuccess : AttemptOutcome → Bool
  | .success _ => true
  | _ => false

/-- An attempt whose raced promise rejects (adapter failure or
timeout), as opposed to resolving. -/
def isRejection : AttemptOutcome → Bool
  | .timedOut => true
  | .failed _ => true
  | _ => false

/-! ## Helper lemmas -/

theorem containsSeq_nil_pat (s : List Char) : containsSeq [] s = true := by
  induction s with
  | nil => rfl
  | cons c rest ih => simp [containsSeq, ih, List.isPrefixOf]

theorem containsSeq_append (x pat y : List Char) :
    containsSeq pat (x ++ (pat ++ y)) = true := by
  induction x with
  | nil =>
      cases pat with
      | nil => simpa using containsSeq_nil_pat y
      | cons c p =>
          simp only [List.nil_append, containsSeq, Bool.or_eq_true]
          exact Or.inl (List.isPrefixOf_iff_prefix.mpr (List.prefix_append _ _))
  | cons c x ih =>
      simp only [List.cons_append, containsSeq, Bool.or_eq_true]
      exact Or.inr ih

theorem strIncludes_append (a pat b : String) :
    strIncludes (a ++ pat ++ b) pat = true := by
  have hdata : (a ++ pat ++ b).data = a.data ++ (pat.data ++ b.data) := by
    simp [String.data_append]
  simp only [strIncludes, hdata]
  exact containsSeq_append a.data pat.data b.data

theorem providersToTry_ne_nil (selected : AIProvider) (configured : List AIProvider) :
    providersToTry selected configured ≠ [] := by
  unfold providersToTry
  simp only
  split
  · next h => exact List.length_pos.mp h
  · next h => cases selected <;> decide

theorem sendLoop_nil (fb : Bool) (tms : Nat) (oc : AIProvider → AttemptOutcome)
    (prev : Option AIProvider) (le : Option ClassifiedError) :
    sendLoop fb tms oc [] prev le =
      ⟨[], [], .error (match le with
        | some e => .classified e
        | none => .noProviders)⟩ := rfl

theorem sendLoop_cons_success (fb : Bool) (tms : Nat) (oc : AIProvider → AttemptOutcome)
    (p : AIProvider) (rest : List AIProvider) (prev : Option AIProvider)
    (le : Option ClassifiedError) (text : String) (h : oc p = .success text) :
    sendLoop fb tms oc (p :: rest) prev le =
      ⟨switchEvents prev p le ++ [.provider_health p .healthy none], [(p, .healthy)],
        .ok ⟨text, p, prev.isSome⟩⟩ := by
  simp [sendLoop, h]

theorem sendLoop_cons_fail_stop (fb : Bool) (tms : Nat) (oc : AIProvider → AttemptOutcome)
    (p : AIProvider) (rest : List AIProvider) (prev : Option AIProvider)
    (le : Option ClassifiedError) (hs : isSuccess (oc p) = false)
    (hstop : (fb && !rest.isEmpty) = false) :
    sendLoop fb tms oc (p :: rest) prev le =
      ⟨switchEvents prev p le ++ (failureData tms p (oc p)).1 ++
          [.provider_health p (healthOf (attemptErr tms oc p))
            (some (attemptErr tms oc p).message)],
        (failureData tms p (oc p)).2.1 ++ [(p, healthOf (attemptErr tms oc p))],
        .error (.classified (attemptErr tms oc p))⟩ := by
  rcases ho : oc p with text | _ | e | e
  · rw [ho] at hs; simp [isSuccess] at hs
  all_goals simp [sendLoop, ho, hstop, attemptErr]

theorem sendLoop_cons_fail_cont (fb : Bool) (tms : Nat) (oc : AIProvider → AttemptOutcome)
    (p : AIProvider) (rest : List AIProvider) (prev : Option AIProvider)
    (le : Option ClassifiedError) (hs : isSuccess (oc p) = false)
    (hcont : (fb && !rest.isEmpty) = true) :
    sendLoop fb tms oc (p :: rest) prev le =
      ⟨switchEvents prev p le ++ (failureData tms p (oc p)).1 ++
          [.provider_health p (healthOf (attemptErr tms oc p))
            (some (attemptErr tms oc p).message)] ++
          (sendLoop fb tms oc rest (some p) (some (attemptErr tms oc p))).events,
        (failureData tms p (oc p)).2.1 ++ [(p, healthOf (attemptErr tms oc p))] ++
          (sendLoop fb tms oc rest (some p) (some (attemptErr tms oc p))).healthWrites,
        (sendLoop fb tms oc rest (some p) (some (attemptErr tms oc p))).result⟩ := by
  rcases ho : oc p with text | _ | e | e
  · rw [ho] at hs; simp [isSuccess] at hs
  all_goals simp [sendLoop, ho, hcont, attemptErr]

theorem countSwitch_append (a b : List RuntimeEvent) :
    countSwitch (a ++ b) = countSwitch a + countSwitch b := by
  simp [countSwitch, List.filter_append]

theorem countHealth_append (a b : List RuntimeEvent) :
    countHealth (a ++ b) = countHealth a + countHealth b := by
  simp [countHealth, List.filter_append]

theorem countSwitch_switchEvents (prev : Option AIProvider) (p : AIProvider)
    (le : Option ClassifiedError) :
    countSwitch (switchEvents prev p le) = if prev.isSome then 1 else 0 := by
  cases prev <;> simp [switchEvents, countSwitch, isSwitchEvent]

theorem countHealth_switchEvents (prev : Option AIProvider) (p : AIProvider)
    (le : Option ClassifiedError) :
    countHealth (switchEvents prev p le) = 0 := by
  cases prev <;> simp [switchEvents, countHealth, isHealthEvent]

theorem failureData_rejection (tms : Nat) (p : AIProvider) (o : AttemptOutcome)
    (h : isRejection o = true) :
    (failureData tms p o).1 = [] ∧ (failureData tms p o).2.1 = [] := by
  cases o <;> simp_all [isRejection, failureData]

theorem switchEvents_not_health (prev : Option AIProvider) (p : AIProvider)
    (le : Option ClassifiedError) :
    ∀ ev ∈ switchEvents prev p le, isHealthEvent ev = false := by
  cases prev <;> simp [switchEvents, isHealthEvent]

theorem countHealth_health_singleton (p : AIProvider) (h : HealthState) (d : Option String) :
    countHealth [.provider_health p h d] = 1 := rfl

theorem countSwitch_health_singleton (p : AIProvider) (h : HealthState) (d : Option String) :
    countSwitch [.provider_health p h d] = 0 := rfl

theorem countHealth_cons_health (p : AIProvider) (h : HealthState) (d : Option String)
    (evs : List RuntimeEvent) :
    countHealth (.provider_health p h d :: evs) = countHealth evs + 1 := by
  simp [countHealth, isHealthEvent, List.filter_cons]

theorem countSwitch_cons_health (p : AIProvider) (h : HealthState) (d : Option String)
    (evs : List RuntimeEvent) :
    countSwitch (.provider_health p h d :: evs) = countSwitch evs := by
  simp [countSwitch, isSwitchEvent, List.filter_cons]

theorem sendLoop_allFail (tms : Nat) (oc : AIProvider → AttemptOutcome) (l : List AIProvider) :
    ∀ (prev : Option AIProvider) (le : Option ClassifiedError),
      (∀ p ∈ l, isRejection (oc p) = true) → l ≠ [] →
      (∀ plast, l.getLast? = some plast →
        (sendLoop true tms oc l prev le).result
            = .error (.classified (attemptErr tms oc plast))) ∧
      countHealth (sendLoop true tms oc l prev le).events = l.length ∧
      countSwitch (sendLoop true tms oc l prev le).events
          = l.length - 1 + (if prev.isSome then 1 else 0) ∧
      (∀ ev ∈ (sendLoop true tms oc l prev le).events, isHealthEvent ev = true →
        ∃ p, p ∈ l ∧ ev = .provider_health p (healthOf (attemptErr tms oc p))
            (some (attemptErr tms oc p).message)) := by
  induction l with
  | nil => intro prev le _ hne; exact absurd rfl hne
  | cons p rest ih =>
      intro prev le hfail _
      have hp : isRejection (oc p) = true := hfail p (List.mem_cons_self p rest)
      have hps : isSuccess (oc p) = false := by
        rcases ho : oc p with t | _ | e | e <;> simp_all [isRejection, isSuccess]
      have hpre := failureData_rejection tms p (oc p) hp
      cases rest with
      | nil =>
          rw [sendLoop_cons_fail_stop true tms oc p [] prev le hps (by decide)]
          refine ⟨?_, ?_, ?_, ?_⟩
          · intro plast hpl
            simp only [List.getLast?_singleton, Option.some.injEq] at hpl
            subst hpl
            rfl
          · simp [countHealth_append, countHealth_switchEvents, hpre.1,
              countHealth_health_singleton]
          · rcases prev with _ | q <;>
              simp [countSwitch_append, countSwitch_switchEvents, hpre.1,
                countSwitch_health_singleton]
          · intro ev hmem hhe
            rw [hpre.1] at hmem
            simp only [List.append_nil, List.nil_append, List.append_assoc] at hmem
            rcases List.mem_append.mp hmem with h1 | h2
            · rw [switchEvents_not_health prev p le ev h1] at hhe
              exact absurd hhe (by simp)
            · simp only [List.mem_singleton] at h2
              exact ⟨p, List.mem_cons_self p [], h2⟩
      | cons q rest' =>
          have hcont : (true && !(q :: rest').isEmpty) = true := by simp
          rw [sendLoop_cons_fail_cont true tms oc p (q :: rest') prev le hps hcont]
          have hrest := ih (some p) (some (attemptErr tms oc p))
            (fun r hr => hfail r (List.mem_cons_of_mem p hr))
            (List.cons_ne_nil q rest')
          refine ⟨?_, ?_, ?_, ?_⟩
          · intro plast hpl
            rw [List.getLast?_cons_cons] at hpl
            exact hrest.1 plast hpl
          · simp [countHealth_append, countHealth_switchEvents, hpre.1,
              countHealth_health_singleton, countHealth_cons_health, hrest.2.1]
          · rcases prev with _ | q0 <;>
              simp [countSwitch_append, countSwitch_switchEvents, hpre.1,
                countSwitch_health_singleton, countSwitch_cons_health,
                hrest.2.2.1, List.length_cons] <;>
              omega
          · intro ev hmem hhe
            rw [hpre.1] at hmem
            simp only [List.append_nil, List.nil_append, List.append_assoc] at hmem
            rcases List.mem_append.mp hmem with h1 | h23
            · rw [switchEvents_not_health prev p le ev h1] at hhe
              exact absurd hhe (by simp)
            · rcases List.mem_append.mp h23 with h2 | h3
              · simp only [List.mem_singleton] at h2
                exact ⟨p, List.mem_cons_self p _, h2⟩
              · obtain ⟨r, hrmem, hrshape⟩ := hrest.2.2.2 ev h3 hhe
                exact ⟨r, List.mem_cons_of_mem p hrmem, hrshape⟩

theorem failureData_events_shape (tms : Nat) (p0 : AIProvider) (o : AttemptOutcome) :
    ∀ ev ∈ (failureData tms p0 o).1, ev = .provider_health p0 .healthy none := by
  cases o <;> simp [failureData]

theorem failureData_writes_shape (tms : Nat) (p0 : AIProvider) (o : AttemptOutcome) :
    ∀ w ∈ (failureData tms p0 o).2.1, w = (p0, HealthState.healthy) := by
  cases o <;> simp [failureData]

theorem sendLoop_health_detail (fb : Bool) (tms : Nat) (oc : AIProvider → AttemptOutcome)
    (l : List AIProvider) :
    ∀ (prev : Option AIProvider) (le : Option ClassifiedError) (p : AIProvider)
      (h : HealthState) (d : String),
      RuntimeEvent.provider_health p h (some d) ∈ (sendLoop fb tms oc l prev le).events →
      h = healthOf (attemptErr tms oc p) ∧
      d = (attemptErr tms oc p).message ∧
      (p, h) ∈ (sendLoop fb tms oc l prev le).healthWrites := by
  induction l with
  | nil =>
      intro prev le p h d hmem
      rw [sendLoop_nil] at hmem
      simp at hmem
  | cons p0 rest ih =>
      intro prev le p h d hmem
      by_cases hsucc : ∃ text, oc p0 = .success text
      · obtain ⟨text, ho⟩ := hsucc
        rw [sendLoop_cons_success fb tms oc p0 rest prev le text ho] at hmem ⊢
        rcases List.mem_append.mp hmem with h1 | h2
        · have hfalse := switchEvents_not_health prev p0 le _ h1
          simp [isHealthEvent] at hfalse
        · simp at h2
      · have hps : isSuccess (oc p0) = false := by
          rcases ho : oc p0 with t | _ | e | e <;> simp_all [isSuccess]
        cases hbr : (fb && !rest.isEmpty) with
        | false =>
            rw [sendLoop_cons_fail_stop fb tms oc p0 rest prev le hps hbr] at hmem ⊢
            rcases List.mem_append.mp hmem with h12 | h3
            · rcases List.mem_append.mp h12 with h1 | h2
              · have hfalse := switchEvents_not_health prev p0 le _ h1
                simp [isHealthEvent] at hfalse
              · have := failureData_events_shape tms p0 (oc p0) _ h2
                simp at this
            · simp only [List.mem_singleton, RuntimeEvent.provider_health.injEq] at h3
              obtain ⟨hpp, hh, hd⟩ := h3
              subst hpp
              refine ⟨hh, by simpa using hd, ?_⟩
              subst hh
              exact List.mem_append.mpr (Or.inr (List.mem_singleton.mpr rfl))
        | true =>
            rw [sendLoop_cons_fail_cont fb tms oc p0 rest prev le hps hbr] at hmem ⊢
            rcases List.mem_append.mp hmem with h123 | h4
            · rcases List.mem_append.mp h123 with h12 | h3
              · rcases List.mem_append.mp h12 with h1 | h2
                · have hfalse := switchEvents_not_health prev p0 le _ h1
                  simp [isHealthEvent] at hfalse
                · have := failureData_events_shape tms p0 (oc p0) _ h2
                  simp at this
              · simp only [List.mem_singleton, RuntimeEvent.provider_health.injEq] at h3
                obtain ⟨hpp, hh, hd⟩ := h3
                subst hpp
                refine ⟨hh, by simpa using hd, ?_⟩
                subst hh
                exact List.mem_append.mpr (Or.inl
                  (List.mem_append.mpr (Or.inr (List.mem_singleton.mpr rfl))))
            · obtain ⟨hh, hd, hw⟩ := ih (some p0) (some (attemptErr tms oc p0)) p h d h4
              exact ⟨hh, hd, List.mem_append.mpr (Or.inr hw)⟩

/-! ## Claims -/

/-- C1: for every selected provider `p` (whether passed as
`options.provider` or falling back to the stored default), the candidate
list built by `sendMessage` has `p` as its first element, contains no
provider twice, and lists the remaining providers in the fixed priority
order gemini, openai, anthropic. -/
theorem candidate_ordering (optProvider : Option AIProvider) (defaultProvider : AIProvider) :
    (mkCandidates (resolveSelected optProvider defaultProvider)).head?
        = some (resolveSelected optProvider defaultProvider) ∧
    (mkCandidates (resolveSelected optProvider defaultProvider)).Nodup ∧
    (mkCandidates (resolveSelected optProvider defaultProvider)).tail
        = PROVIDER_ORDER.filter
            (fun q => q ≠ resolveSelected optProvider defaultProvider) := by
  rcases optProvider with _ | p
  · cases defaultProvider <;> decide
  · cases p <;> cases defaultProvider <;> decide

/-- C6: for every not-yet-classified failure carrying a message, the
classifier assigns the first matching kind in the fixed priority order
over the lower-cased message: `auth` for "missing"/"invalid
key"/"unauthorized"/"401", else `timeout` for "timeout", else
`rate_limit` for "429"/"rate", else `network` for "network"/"fetch",
else `provider` for "provider", else `unknown`. -/
theorem classify_keyword_priority (message : String) :
    ((classifyError AIProvider.gemini (.plain message)).classification = .auth ↔
      (strIncludes (lowerStr message) "missing" || strIncludes (lowerStr message) "invalid key" ||
        strIncludes (lowerStr message) "unauthorized" || strIncludes (lowerStr message) "401") = true) ∧
    ((classifyError AIProvider.gemini (.plain message)).classification = .timeout ↔
      ((strIncludes (lowerStr message) "missing" || strIncludes (lowerStr message) "invalid key" ||
        strIncludes (lowerStr message) "unauthorized" || strIncludes (lowerStr message) "401") = false ∧
        strIncludes (lowerStr message) "timeout" = true)) ∧
    ((classifyError AIProvider.gemini (.plain message)).classification = .rate_limit ↔
      ((strIncludes (lowerStr message) "missing" || strIncludes (lowerStr message) "invalid key" ||
        strIncludes (lowerStr message) "unauthorized" || strIncludes (lowerStr message) "401") = false ∧
        strIncludes (lowerStr message) "timeout" = false ∧
        (strIncludes (lowerStr message) "429" || strIncludes (lowerStr message) "rate") = true)) ∧
    ((classifyError AIProvider.gemini (.plain message)).classification = .network ↔
      ((strIncludes (lowerStr message) "missing" || strIncludes (lowerStr message) "invalid key" ||
        strIncludes (lowerStr message) "unauthorized" || strIncludes (lowerStr message) "401") = false ∧
        strIncludes (lowerStr message) "timeout" = false ∧
        (strIncludes (lowerStr message) "429" || strIncludes (lowerStr message) "rate") = false ∧
        (strIncludes (lowerStr message) "network" || strIncludes (lowerStr message) "fetch") = true)) ∧
    ((classifyError AIProvider.gemini (.plain message)).classification = .provider ↔
      ((strIncludes (lowerStr message) "missing" || strIncludes (lowerStr message) "invalid key" ||
        strIncludes (lowerStr message) "unauthorized" || strIncludes (lowerStr message) "401") = false ∧
        strIncludes (lowerStr message) "timeout" = false ∧
        (strIncludes (lowerStr message) "429" || strIncludes (lowerStr message) "rate") = false ∧
        (strIncludes (lowerStr message) "network" || strIncludes (lowerStr message) "fetch") = false ∧
        strIncludes (lowerStr message) "provider" = true)) ∧
    ((classifyError AIProvider.gemini (.plain message)).classification = .unknown ↔
      ((strIncludes (lowerStr message) "missing" || strIncludes (lowerStr message) "invalid key" ||
        strIncludes (lowerStr message) "unauthorized" || strIncludes (lowerStr message) "401") = false ∧
        strIncludes (lowerStr message) "timeout" = false ∧
        (strIncludes (lowerStr message) "429" || strIncludes (lowerStr message) "rate") = false ∧
        (strIncludes (lowerStr message) "network" || strIncludes (lowerStr message) "fetch") = false ∧
        strIncludes (lowerStr message) "provider" = false)) := by
  cases h1 : (strIncludes (lowerStr message) "missing" || strIncludes (lowerStr message) "invalid key" ||
      strIncludes (lowerStr message) "unauthorized" || strIncludes (lowerStr message) "401") <;>
    cases h2 : strIncludes (lowerStr message) "timeout" <;>
    cases h3 : (strIncludes (lowerStr message) "429" || strIncludes (lowerStr message) "rate") <;>
    cases h4 : (strIncludes (lowerStr message) "network" || strIncludes (lowerStr message) "fetch") <;>
    cases h5 : strIncludes (lowerStr message) "provider" <;>
    simp [classifyError, classifyMessage, h1, h2, h3, h4, h5]

/-- C7: for every thrown failure value, `classifyError` returns an error
whose kind is one of the six enumerated values, and classification is
idempotent: classifying an already-classified error returns it
unchanged, kind and message identical. -/
theorem classify_total_idempotent (p : AIProvider) (e : RawError) :
    (classifyError p e).classification ∈
      [ErrorClass.timeout, .auth, .rate_limit, .network, .provider, .unknown] ∧
    classifyError p (.classified (classifyError p e)) = classifyError p e := by
  refine ⟨?_, rfl⟩
  cases (classifyError p e).classification <;> simp

theorem strIncludes_of_data (s pat : String) (x y : List Char)
    (h : s.data = x ++ (pat.data ++ y)) : strIncludes s pat = true := by
  simp only [strIncludes, h]
  exact containsSeq_append x pat.data y

/-- C5: if the raced operation settles strictly before the deadline,
`withTimeout` yields the operation's own settlement (its result or its
own failure); if the deadline fires first, `withTimeout` fails with a
`ClassifiedError` of kind `timeout` whose message names the provider
and the duration in milliseconds; and on every outcome the deadline
timer is cancelled before `withTimeout` returns. -/
theorem withTimeout_race (op : OpOutcome) (timeoutMs : Nat) (p : AIProvider) :
    (settleTime op < timeoutMs → (withTimeout op timeoutMs p).1 = opResult op) ∧
    (timeoutMs ≤ settleTime op →
      (withTimeout op timeoutMs p).1
          = .error (.classified ⟨timeoutMessage p timeoutMs, .timeout⟩) ∧
      strIncludes (timeoutMessage p timeoutMs) (providerName p) = true ∧
      strIncludes (timeoutMessage p timeoutMs) (toString timeoutMs ++ "ms") = true) ∧
    (withTimeout op timeoutMs p).2 = true := by
  refine ⟨?_, ?_, rfl⟩
  · intro h
    simp [withTimeout, h]
  · intro h
    refine ⟨by simp [withTimeout, Nat.not_lt.mpr h], ?_, ?_⟩
    · exact strIncludes_of_data _ _ []
        (" request timed out after " ++ toString timeoutMs ++ "ms").data
        (by simp [timeoutMessage, String.data_append])
    · exact strIncludes_of_data _ _
        (providerName p ++ " request timed out after ").data []
        (by simp [timeoutMessage, String.data_append])

/-- C5 witness: a concrete operation settling at 5 ms against a 10 ms
deadline keeps its own result, and one settling at 15 ms times out. -/
theorem withTimeout_race_witness :
    (settleTime (.resolves 5 "ok") < 10 ∧
      (withTimeout (.resolves 5 "ok") 10 .gemini).1 = opResult (.resolves 5 "ok")) ∧
    (10 ≤ settleTime (.resolves 15 "late") ∧
      (withTimeout (.resolves 15 "late") 10 .gemini).1
          = .error (.classified ⟨timeoutMessage .gemini 10, .timeout⟩)) :=
  ⟨⟨by decide, (withTimeout_race (.resolves 5 "ok") 10 .gemini).1 (by decide)⟩,
    ⟨by decide, ((withTimeout_race (.resolves 15 "late") 10 .gemini).2.1 (by decide)).1⟩⟩

/-- C9 counterexample: with two subscribed listeners where the first
throws on the event, `emitRuntimeEvent` invokes only listener 0;
listener 1, subscribed after the thrower, never receives the event —
the bare `forEach` in the source does not isolate listener failures, so
a throwing listener does prevent delivery to subsequent listeners. -/
theorem throwing_listener_blocks_delivery :
    (emitRuntimeEvent [fun _ => true, fun _ => false]
        (.provider_health .gemini .healthy none)).1 = [0] ∧
    1 ∉ (emitRuntimeEvent [fun _ => true, fun _ => false]
        (.provider_health .gemini .healthy none)).1 :=
  ⟨rfl, by decide⟩

/-- C9 amended: `publish` invokes listeners synchronously in
subscription order; when no listener throws, every currently-subscribed
listener receives the event and no exception escapes; when some
listener throws, exactly the listeners up to and including the first
throwing one are invoked and the exception propagates to the publisher,
so listeners subscribed after the throwing one do not receive the
event. -/
theorem emit_subscription_order (listeners : List (RuntimeEvent → Bool)) (e : RuntimeEvent) :
    (listeners.findIdx? (fun f => f e) = none →
      emitRuntimeEvent listeners e = (List.range listeners.length, false)) ∧
    (∀ k, listeners.findIdx? (fun f => f e) = some k →
      emitRuntimeEvent listeners e = (List.range (k + 1), true)) := by
  induction listeners with
  | nil =>
      exact ⟨fun _ => rfl, fun k h => by simp at h⟩
  | cons f rest ih =>
      constructor
      · intro h
        rw [List.findIdx?_cons] at h
        cases hf : f e with
        | true => simp [hf] at h
        | false =>
            simp only [hf, if_neg Bool.false_ne_true, List.findIdx?_succ] at h
            have hrest : rest.findIdx? (fun f => f e) = none := by
              rcases hmap : rest.findIdx? (fun f => f e) with _ | k
              · exact hmap
              · rw [hmap] at h; simp at h
            have hnext : emitAux e rest = (List.range rest.length, false) := ih.1 hrest
            simp [emitRuntimeEvent, emitAux, hf, hnext,
              List.range_succ_eq_map, Nat.succ_eq_add_one]
      · intro k h
        rw [List.findIdx?_cons] at h
        cases hf : f e with
        | true =>
            simp [hf] at h
            subst h
            simp [emitRuntimeEvent, emitAux, hf, List.range_succ_eq_map]
        | false =>
            simp only [hf, if_neg Bool.false_ne_true, List.findIdx?_succ] at h
            rcases hmap : rest.findIdx? (fun f => f e) with _ | k'
            · rw [hmap] at h; simp at h
            · rw [hmap] at h
              simp only [Option.map_some', Option.some.injEq] at h
              subst h
              have hnext : emitAux e rest = (List.range (k' + 1), true) := ih.2 k' hmap
              simp [emitRuntimeEvent, emitAux, hf, hnext,
                List.range_succ_eq_map, Nat.succ_eq_add_one]

/-- C9 amended witness: with no throwing listener both subscribers
receive the event; with a thrower at index 0 only it is invoked and the
exception escapes. -/
theorem emit_subscription_order_witness :
    (([fun _ => false, fun _ => false] : List (RuntimeEvent → Bool)).findIdx?
        (fun f => f (.provider_health .gemini .healthy none)) = none ∧
      emitRuntimeEvent [fun _ => false, fun _ => false]
          (.provider_health .gemini .healthy none) = (List.range 2, false)) ∧
    (([fun _ => true, fun _ => false] : List (RuntimeEvent → Bool)).findIdx?
        (fun f => f (.provider_health .gemini .healthy none)) = some 0 ∧
      emitRuntimeEvent [fun _ => true, fun _ => false]
          (.provider_health .gemini .healthy none) = (List.range 1, true)) :=
  ⟨⟨rfl, (emit_subscription_order [fun _ => false, fun _ => false]
      (.provider_health .gemini .healthy none)).1 rfl⟩,
    ⟨rfl, (emit_subscription_order [fun _ => true, fun _ => false]
      (.provider_health .gemini .healthy none)).2 0 rfl⟩⟩

theorem countSwitch_failureData (tms : Nat) (p : AIProvider) (o : AttemptOutcome) :
    countSwitch (failureData tms p o).1 = 0 := by
  cases o <;> simp [failureData, countSwitch, isSwitchEvent]

/-- C2: when fallback is enabled and every one of the attempted
candidates' raced attempts rejects, `sendMessage` rejects with the last
candidate's classified error — errors from earlier candidates never
appear in the final rejection — emits exactly one ProviderHealth event
per attempted candidate (each carrying `unconfigured` for `auth` kinds
and `error` otherwise) and exactly n-1 ProviderSwitch events for the n
attempted candidates. -/
theorem allFail_last_error (selected : AIProvider) (configured : List AIProvider)
    (tms : Nat) (oc : AIProvider → AttemptOutcome) (plast : AIProvider)
    (hfail : ∀ p ∈ providersToTry selected configured, isRejection (oc p) = true)
    (hlast : (providersToTry selected configured).getLast? = some plast) :
    (sendMessage selected true configured tms oc).result
        = .error (.classified (attemptErr tms oc plast)) ∧
    countHealth (sendMessage selected true configured tms oc).events
        = (providersToTry selected configured).length ∧
    countSwitch (sendMessage selected true configured tms oc).events
        = (providersToTry selected configured).length - 1 ∧
    (∀ ev ∈ (sendMessage selected true configured tms oc).events,
      isHealthEvent ev = true →
      ∃ p, p ∈ providersToTry selected configured ∧
        ev = .provider_health p (healthOf (attemptErr tms oc p))
            (some (attemptErr tms oc p).message)) := by
  have hmain := sendLoop_allFail tms oc (providersToTry selected configured) none none
    hfail (providersToTry_ne_nil selected configured)
  simp only [sendMessage]
  exact ⟨hmain.1 plast hlast, hmain.2.1, by simpa using hmain.2.2.1, hmain.2.2.2⟩

/-- C2 witness (Scenario B): all three candidates fail with a
network-flavored message; the final rejection has kind `network`, three
ProviderHealth events and two ProviderSwitch events are emitted. -/
theorem allFail_last_error_witness :
    (∀ p ∈ providersToTry .gemini [.gemini, .openai, .anthropic],
      isRejection ((fun _ => AttemptOutcome.failed
        (.plain "network error during fetch")) p) = true) ∧
    (providersToTry .gemini [.gemini, .openai, .anthropic]).getLast? = some .anthropic ∧
    (attemptErr 20000 (fun _ => AttemptOutcome.failed
        (.plain "network error during fetch")) .anthropic).classification = .network ∧
    (providersToTry .gemini [.gemini, .openai, .anthropic]).length = 3 ∧
    ((sendMessage .gemini true [.gemini, .openai, .anthropic] 20000
        (fun _ => AttemptOutcome.failed (.plain "network error during fetch"))).result
        = .error (.classified (attemptErr 20000 (fun _ => AttemptOutcome.failed
            (.plain "network error during fetch")) .anthropic)) ∧
      countHealth (sendMessage .gemini true [.gemini, .openai, .anthropic] 20000
          (fun _ => AttemptOutcome.failed (.plain "network error during fetch"))).events
          = (providersToTry .gemini [.gemini, .openai, .anthropic]).length ∧
      countSwitch (sendMessage .gemini true [.gemini, .openai, .anthropic] 20000
          (fun _ => AttemptOutcome.failed (.plain "network error during fetch"))).events
          = (providersToTry .gemini [.gemini, .openai, .anthropic]).length - 1 ∧
      (∀ ev ∈ (sendMessage .gemini true [.gemini, .openai, .anthropic] 20000
          (fun _ => AttemptOutcome.failed (.plain "network error during fetch"))).events,
        isHealthEvent ev = true →
        ∃ p, p ∈ providersToTry .gemini [.gemini, .openai, .anthropic] ∧
          ev = .provider_health p (healthOf (attemptErr 20000
              (fun _ => AttemptOutcome.failed (.plain "network error during fetch")) p))
            (some (attemptErr 20000 (fun _ => AttemptOutcome.failed
              (.plain "network error during fetch")) p).message))) :=
  ⟨fun p _ => rfl, by decide, by decide, by decide,
    allFail_last_error .gemini [.gemini, .openai, .anthropic] 20000
      (fun _ => AttemptOutcome.failed (.plain "network error during fetch")) .anthropic
      (fun p _ => rfl) (by decide)⟩

/-- C3: with fallback disabled, when the first attempted candidate's
attempt fails, `sendMessage` rejects immediately with that attempt's
classified error, no further candidate is attempted (every emitted
runtime event concerns the first candidate only) and zero
ProviderSwitch events are emitted — none reach the runtime bus, hence
none reach the mirrored `onProviderSwitch` callback either. -/
theorem noFallback_short_circuit (selected : AIProvider) (configured : List AIProvider)
    (tms : Nat) (oc : AIProvider → AttemptOutcome) (first : AIProvider)
    (hfirst : (providersToTry selected configured).head? = some first)
    (hfail : isSuccess (oc first) = false) :
    (sendMessage selected false configured tms oc).result
        = .error (.classified (attemptErr tms oc first)) ∧
    countSwitch (sendMessage selected false configured tms oc).events = 0 ∧
    (∀ ev ∈ (sendMessage selected false configured tms oc).events,
      ∃ h d, ev = .provider_health first h d) := by
  obtain ⟨rest, hl⟩ : ∃ rest, providersToTry selected configured = first :: rest := by
    rcases hcase : providersToTry selected configured with _ | ⟨a, rest⟩
    · rw [hcase] at hfirst; simp at hfirst
    · rw [hcase] at hfirst
      simp only [List.head?_cons, Option.some.injEq] at hfirst
      exact ⟨rest, by rw [hfirst]⟩
  simp only [sendMessage, hl]
  rw [sendLoop_cons_fail_stop false tms oc first rest none none hfail (by simp)]
  refine ⟨rfl, ?_, ?_⟩
  · simp [switchEvents, countSwitch_append, countSwitch_failureData,
      countSwitch_health_singleton]
  · intro ev hmem
    simp only [switchEvents, List.nil_append] at hmem
    rcases List.mem_append.mp hmem with h2 | h3
    · exact ⟨HealthState.healthy, none, failureData_events_shape tms first (oc first) _ h2⟩
    · simp only [List.mem_singleton] at h3
      exact ⟨_, _, h3⟩

/-- C3 witness: a single configured candidate that times out with
fallback disabled is surfaced immediately, with no switch events. -/
theorem noFallback_short_circuit_witness :
    (providersToTry .gemini [.gemini]).head? = some .gemini ∧
    isSuccess ((fun _ => AttemptOutcome.timedOut) AIProvider.gemini) = false ∧
    ((sendMessage .gemini false [.gemini] 50 (fun _ => AttemptOutcome.timedOut)).result
        = Except.error (SendFailure.classified
            (attemptErr 50 (fun _ => AttemptOutcome.timedOut) .gemini)) ∧
      countSwitch (sendMessage .gemini false [.gemini] 50
          (fun _ => AttemptOutcome.timedOut)).events = 0 ∧
      (∀ ev ∈ (sendMessage .gemini false [.gemini] 50
          (fun _ => AttemptOutcome.timedOut)).events,
        ∃ h d, ev = .provider_health .gemini h d)) :=
  ⟨by decide, by decide,
    noFallback_short_circuit .gemini [.gemini] 50 (fun _ => AttemptOutcome.timedOut)
      .gemini (by decide) (by decide)⟩

/-- C4: after every failed attempt, the health recorded (written through
to storage and carried on the emitted ProviderHealth event, together
with the classified error's message) is `unconfigured` exactly when the
classified kind is `auth` and `error` otherwise; and in Scenario A —
selected openai failing with a "401 Unauthorized" message while
anthropic succeeds — the call returns provider anthropic with
fallbackUsed=true after exactly one ProviderHealth{openai, unconfigured}
event, one ProviderSwitch{openai→anthropic, reason "auth"} event and one
ProviderHealth{anthropic, healthy} event. -/
theorem failed_attempt_health (selected : AIProvider) (fb : Bool)
    (configured : List AIProvider) (tms : Nat) (oc : AIProvider → AttemptOutcome) :
    (∀ p h d, RuntimeEvent.provider_health p h (some d)
        ∈ (sendMessage selected fb configured tms oc).events →
      (h = HealthState.unconfigured ↔ (attemptErr tms oc p).classification = .auth) ∧
      h = healthOf (attemptErr tms oc p) ∧
      d = (attemptErr tms oc p).message ∧
      (p, h) ∈ (sendMessage selected fb configured tms oc).healthWrites) ∧
    sendMessage .openai true [.openai, .anthropic] 20000
        (fun p => match p with
          | .openai => .failed (.plain "Request failed: 401 Unauthorized")
          | .anthropic => .success "Anthropic adapter response: ok"
          | .gemini => .failed (.plain "unused")) =
      ⟨[.provider_health .openai .unconfigured (some "Request failed: 401 Unauthorized"),
        .provider_switch .openai .anthropic "auth",
        .provider_health .anthropic .healthy none],
        [(.openai, .unconfigured), (.anthropic, .healthy)],
        .ok ⟨"Anthropic adapter response: ok", .anthropic, true⟩⟩ := by
  constructor
  · intro p h d hmem
    obtain ⟨hh, hd, hw⟩ := sendLoop_health_detail fb tms oc
      (providersToTry selected configured) none none p h d
      (by simpa [sendMessage] using hmem)
    refine ⟨?_, hh, hd, by simpa [sendMessage] using hw⟩
    subst hh
    by_cases hcl : (attemptErr tms oc p).classification = .auth <;>
      simp [healthOf, hcl]
  · decide

/-- C4 witness: the Scenario A failure event for openai instantiates the
general health-recording law. -/
theorem failed_attempt_health_witness :
    (RuntimeEvent.provider_health .openai .unconfigured
        (some "Request failed: 401 Unauthorized")
      ∈ (sendMessage .openai true [.openai, .anthropic] 20000
        (fun p => match p with
          | .openai => .failed (.plain "Request failed: 401 Unauthorized")
          | .anthropic => .success "Anthropic adapter response: ok"
          | .gemini => .failed (.plain "unused"))).events) ∧
    ((HealthState.unconfigured = HealthState.unconfigured ↔
        (attemptErr 20000 (fun p => match p with
          | .openai => .failed (.plain "Request failed: 401 Unauthorized")
          | .anthropic => .success "Anthropic adapter response: ok"
          | .gemini => .failed (.plain "unused")) .openai).classification = .auth) ∧
      HealthState.unconfigured = healthOf (attemptErr 20000 (fun p => match p with
          | .openai => .failed (.plain "Request failed: 401 Unauthorized")
          | .anthropic => .success "Anthropic adapter response: ok"
          | .gemini => .failed (.plain "unused")) .openai) ∧
      "Request failed: 401 Unauthorized" = (attemptErr 20000 (fun p => match p with
          | .openai => .failed (.plain "Request failed: 401 Unauthorized")
          | .anthropic => .success "Anthropic adapter response: ok"
          | .gemini => .failed (.plain "unused")) .openai).message ∧
      (AIProvider.openai, HealthState.unconfigured)
        ∈ (sendMessage .openai true [.openai, .anthropic] 20000
          (fun p => match p with
            | .openai => .failed (.plain "Request failed: 401 Unauthorized")
            | .anthropic => .success "Anthropic adapter response: ok"
            | .gemini => .failed (.plain "unused"))).healthWrites) :=
  ⟨by decide,
    (failed_attempt_health .openai true [.openai, .anthropic] 20000
      (fun p => match p with
        | .openai => .failed (.plain "Request failed: 401 Unauthorized")
        | .anthropic => .success "Anthropic adapter response: ok"
        | .gemini => .failed (.plain "unused"))).1
      .openai .unconfigured "Request failed: 401 Unauthorized" (by decide)⟩

/-- C10: when the selected provider has no usable credential but at
least one other provider does, `sendMessage` never attempts the
selected provider: the providers actually tried are exactly the
configured ones in fixed priority order (selected excluded), and when
the first of them succeeds the result carries that provider with
fallbackUsed=false and zero ProviderSwitch events are emitted, even
though the resulting provider differs from the selected one. -/
theorem unconfigured_selected_skipped (selected q : AIProvider)
    (configured : List AIProvider) (fb : Bool) (tms : Nat)
    (oc : AIProvider → AttemptOutcome) (text : String)
    (hsel : configured.contains selected = false)
    (hq : (PROVIDER_ORDER.filter (fun r => configured.contains r)).head? = some q)
    (hsucc : oc q = .success text) :
    providersToTry selected configured
        = PROVIDER_ORDER.filter (fun r => configured.contains r) ∧
    selected ∉ providersToTry selected configured ∧
    q ≠ selected ∧
    (sendMessage selected fb configured tms oc).result = .ok ⟨text, q, false⟩ ∧
    countSwitch (sendMessage selected fb configured tms oc).events = 0 ∧
    (∀ ev ∈ (sendMessage selected fb configured tms oc).events,
      ev = .provider_health q .healthy none) := by
  have hne : PROVIDER_ORDER.filter (fun r => configured.contains r) ≠ [] := by
    intro hnil; rw [hnil] at hq; simp at hq
  have hfil : (mkCandidates selected).filter (fun r => configured.contains r)
      = PROVIDER_ORDER.filter (fun r => configured.contains r) := by
    have hg : mkCandidates AIProvider.gemini
        = [AIProvider.gemini, AIProvider.openai, AIProvider.anthropic] := by decide
    have hoo : mkCandidates AIProvider.openai
        = [AIProvider.openai, AIProvider.gemini, AIProvider.anthropic] := by decide
    have ha : mkCandidates AIProvider.anthropic
        = [AIProvider.anthropic, AIProvider.gemini, AIProvider.openai] := by decide
    cases selected with
    | gemini => rw [hg]; simp only [PROVIDER_ORDER]
    | openai =>
        rw [hoo]
        have hsel' : AIProvider.openai ∉ configured := by simpa using hsel
        simp [PROVIDER_ORDER, List.filter_cons, hsel']
    | anthropic =>
        rw [ha]
        have hsel' : AIProvider.anthropic ∉ configured := by simpa using hsel
        simp [PROVIDER_ORDER, List.filter_cons, hsel']
  have hptt : providersToTry selected configured
      = PROVIDER_ORDER.filter (fun r => configured.contains r) := by
    simp only [providersToTry]
    rw [hfil]
    exact if_pos (List.length_pos.mpr hne)
  obtain ⟨rest, hl⟩ : ∃ rest,
      PROVIDER_ORDER.filter (fun r => configured.contains r) = q :: rest := by
    rcases hcase : PROVIDER_ORDER.filter (fun r => configured.contains r) with _ | ⟨a, rest⟩
    · exact absurd hcase hne
    · rw [hcase] at hq
      simp only [List.head?_cons, Option.some.injEq] at hq
      exact ⟨rest, by rw [hq]⟩
  have hqmem : q ∈ PROVIDER_ORDER.filter (fun r => configured.contains r) := by
    rw [hl]; exact List.mem_cons_self q rest
  have hqcont : configured.contains q = true := (List.mem_filter.mp hqmem).2
  have hqne : q ≠ selected := by
    intro hEq
    rw [hEq, hsel] at hqcont
    exact Bool.noConfusion hqcont
  refine ⟨hptt, ?_, hqne, ?_, ?_, ?_⟩
  · intro hmemsel
    rw [hptt] at hmemsel
    have := (List.mem_filter.mp hmemsel).2
    rw [hsel] at this
    exact Bool.false_ne_true this
  all_goals
    simp only [sendMessage, hptt, hl]
    rw [sendLoop_cons_success fb tms oc q rest none none text hsucc]
  · rfl
  · simp [switchEvents, countSwitch_health_singleton]
  · intro ev hmem
    simp only [switchEvents, List.nil_append, List.mem_singleton] at hmem
    exact hmem

/-- C10 witness: selected openai is unconfigured, gemini alone is
configured and succeeds at the first attempt. -/
theorem unconfigured_selected_skipped_witness :
    ([AIProvider.gemini].contains AIProvider.openai = false) ∧
    ((PROVIDER_ORDER.filter (fun r => [AIProvider.gemini].contains r)).head?
        = some .gemini) ∧
    ((fun _ => AttemptOutcome.success "ok") AIProvider.gemini
        = AttemptOutcome.success "ok") ∧
    (providersToTry .openai [.gemini]
        = PROVIDER_ORDER.filter (fun r => [AIProvider.gemini].contains r) ∧
      AIProvider.openai ∉ providersToTry .openai [.gemini] ∧
      AIProvider.gemini ≠ AIProvider.openai ∧
      (sendMessage .openai true [.gemini] 20000
          (fun _ => AttemptOutcome.success "ok")).result
          = .ok ⟨"ok", .gemini, false⟩ ∧
      countSwitch (sendMessage .openai true [.gemini] 20000
          (fun _ => AttemptOutcome.success "ok")).events = 0 ∧
      (∀ ev ∈ (sendMessage .openai true [.gemini] 20000
          (fun _ => AttemptOutcome.success "ok")).events,
        ev = .provider_health .gemini .healthy none)) :=
  ⟨by decide, by decide, rfl,
    unconfigured_selected_skipped .openai .gemini [.gemini] true 20000
      (fun _ => AttemptOutcome.success "ok") "ok" (by decide) (by decide) rfl⟩

/-- C8 counterexample: the structured-validation failure message
`"Structured output validation failed"` contains none of the
classifier's keywords (in particular not "provider"), so it classifies
as `unknown`, not `provider` as the claim states. -/
theorem structured_validation_classifies_unknown :
    (classifyError .gemini (.plain "Structured output validation failed")).classification
        = .unknown ∧
    ¬ (classifyError .gemini (.plain "Structured output validation failed")).classification
        = .provider := by
  decide

/-- C8 amended: when classified, a missing-credential failure
(`` `${provider} API Key missing` ``) folds to `auth`, a
no-providers-available failure folds to `provider`, and a
structured-validation failure folds to `unknown`; each original message
text is preserved. -/
theorem domain_errors_fold (p q : AIProvider) :
    (classifyError p (.plain (providerName q ++ " API Key missing"))).classification = .auth ∧
    (classifyError p (.plain (providerName q ++ " API Key missing"))).message
        = providerName q ++ " API Key missing" ∧
    (classifyError p (.plain "No providers available")).classification = .provider ∧
    (classifyError p (.plain "No providers available")).message = "No providers available" ∧
    (classifyError p (.plain "Structured output validation failed")).classification = .unknown ∧
    (classifyError p (.plain "Structured output validation failed")).message
        = "Structured output validation failed" := by
  cases q <;> refine ⟨?_, rfl, ?_, rfl, ?_, rfl⟩ <;> simp only [classifyError] <;> decide

end Forgepad
